import Mathlib

/-!
Shallow embedding of the correction-step pipeline of the
FlowVectorCorrections package (files under QnCorrections/), restricted to
the parts exercised by the verified properties: the recentering, alignment
and twist-and-rescale correction steps, their lifecycle state machine, the
ordering keys, and the input-attachment fold of the detector configuration.

Numeric values that the source holds in Float_t or Double_t are modelled as
rationals.  The transcendental functions used by the source (TMath::Cos,
TMath::Sin, TMath::ATan2, TMath::Sqrt) are abstracted into a MathKernel
record of rational functions, so every definition stays executable; theorems
are parametric in the kernel wherever the source is parametric in the exact
real-valued functions.
-/

/-- Rational stand-in for the Double_t values of the source. -/
abbrev Q := ℚ

/-- Abstraction of the TMath transcendental functions used by the correction
steps.  A kernel instantiation is sound at a sample point when it returns the
exact real value of the corresponding function there. -/
structure MathKernel where
  cos : Q → Q
  sin : Q → Q
  atan2 : Q → Q → Q
  sqrt : Q → Q

/-- Model of QnCorrectionsQnVector as used by the correction steps: the list
of active harmonics in GetFirstHarmonic/GetNextHarmonic iteration order,
each with its (Qx, Qy) components, plus the good-quality flag.  Labels are
not modelled. -/
structure QnVector where
  comps : List (Int × Q × Q)
  good : Bool
  deriving DecidableEq, Repr

/-- Component lookup mirroring QnCorrectionsQnVector::Qx. -/
def QnVector.Qx (v : QnVector) (h : Int) : Q :=
  (v.comps.find? (fun c => c.1 == h)).elim 0 (fun c => c.2.1)

/-- Component lookup mirroring QnCorrectionsQnVector::Qy. -/
def QnVector.Qy (v : QnVector) (h : Int) : Q :=
  (v.comps.find? (fun c => c.1 == h)).elim 0 (fun c => c.2.2)

/-- Modelled from the spec: QnCorrectionsQnVector::Set (QnCorrectionsQnVector.cxx
is not under src/) copies the per-harmonic components and the quality flag of
the passed vector into the receiver; the name handling it also performs is not
modelled. -/
def QnVector.setFrom (v : QnVector) : QnVector :=
  { comps := v.comps, good := v.good }

/-- The correction step lifecycle states, from the QnCorrectionStepStatus
enum of QnCorrectionsCorrectionStepBase.h. -/
inductive StepState where
  | calibration
  | apply
  | applyCollect
  | passive
  deriving DecidableEq, Repr

/-- One fill into the calibration histograms, tagged with which profile
component received it (FillXX/FillXY/FillYX/FillYY of the correlation
components profile, FillX/FillY per harmonic of the components profile). -/
inductive FillEntry where
  | fillXX (v : Q)
  | fillXY (v : Q)
  | fillYX (v : Q)
  | fillYY (v : Q)
  | fillX (h : Int) (v : Q)
  | fillY (h : Int) (v : Q)
  deriving DecidableEq, Repr

/-- The contents the apply stage reads from the input correlation-components
histogram for the event-class bin of the current event: bin contents XX, XY,
YX, YY, the errors of XY and YX, and the BinContentValidated answer for the
bin.  The histogram classes themselves are external to src/. -/
structure CorrBin where
  XX : Q
  XY : Q
  YX : Q
  YY : Q
  eXY : Q
  eYX : Q
  validated : Bool

/-- The per-harmonic contents the recentering apply stage reads from its
input components profile for the event-class bin of the current event:
GetXBinContent / GetYBinContent (the means) and GetXBinError / GetYBinError
(the standard deviations, the profiles are built with option s). -/
structure RecBin where
  meanX : Int → Q
  meanY : Int → Q
  sdX : Int → Q
  sdY : Int → Q

/-- Observable effects of one Process / ProcessCorrections /
ProcessDataCollection call: the corrected Qn vector buffer of the step after
the call, the current Qn vector of the owning detector configuration after
the call, whether UpdateCurrentQnVector was invoked, the calibration
histogram fills performed, the number of fills into the not-validated-bin QA
histogram, and the returned Bool_t. -/
structure StepEffects where
  corrected : QnVector
  current : QnVector
  updated : Bool
  fills : List FillEntry
  qaFills : Nat
  ret : Bool
  deriving DecidableEq, Repr

/-- The significance statistic of QnCorrectionsQnVectorAlignment.cxx line 248
and QnCorrectionsQnVectorTwistAndRescale.cxx line 242:
TMath::Sqrt((XY-YX)*(XY-YX)/(eXY*eXY+eYX*eYX)). -/
def corrSignificance (k : MathKernel) (b : CorrBin) : Q :=
  k.sqrt ((b.XY - b.YX) * (b.XY - b.YX) / (b.eXY * b.eXY + b.eYX * b.eYX))

/-- The rotation angle of QnCorrectionsQnVectorAlignment.cxx line 245 and
QnCorrectionsQnVectorTwistAndRescale.cxx line 239:
minus TMath::ATan2((XY-YX),(XX+YY)) times (1.0 / fHarmonicForAlignment). -/
def corrDeltaPhi (k : MathKernel) (m : Int) (b : CorrBin) : Q :=
  -(k.atan2 (b.XY - b.YX) (b.XX + b.YY)) * (1 / (m : Q))

/-- The per-harmonic rotation loop of the apply stage: for every active
harmonic h of the current vector,
Qx(h)*cos(h*deltaPhi) + Qy(h)*sin(h*deltaPhi) and
Qy(h)*cos(h*deltaPhi) - Qx(h)*sin(h*deltaPhi). -/
def rotateQnVector (k : MathKernel) (dphi : Q) (v : QnVector) : QnVector :=
  { comps := v.comps.map (fun c =>
      (c.1,
        c.2.1 * k.cos ((c.1 : Q) * dphi) + c.2.2 * k.sin ((c.1 : Q) * dphi),
        c.2.2 * k.cos ((c.1 : Q) * dphi) - c.2.1 * k.sin ((c.1 : Q) * dphi))),
    good := v.good }

/-- The four correlation-component fills shared by the collection stages of
alignment (from the current Qn vector) and twist-and-rescale (from the input
Qn vector), gated on both involved vectors being of good quality. -/
def fillCorrelationComponents (v ref : QnVector) (m : Int) : List FillEntry :=
  if v.good && ref.good then
    [ FillEntry.fillXX (v.Qx m * ref.Qx m),
      FillEntry.fillXY (v.Qx m * ref.Qy m),
      FillEntry.fillYX (v.Qy m * ref.Qx m),
      FillEntry.fillYY (v.Qy m * ref.Qy m) ]
  else []

/-- The apply stage body shared by QnCorrectionsQnVectorAlignment::Process
(lines 230 to 268): when the current Qn vector is of good quality the step
copies it into the corrected buffer, and rotates every active harmonic by
deltaPhi exactly when the bin content is validated and the significance
statistic is not below 2.0; with a bad quality current vector it only marks
the corrected buffer bad. -/
def alignApplyStage (k : MathKernel) (m : Int) (b : CorrBin)
    (buf cur : QnVector) : QnVector :=
  if cur.good then
    if b.validated then
      if ¬ (corrSignificance k b < 2) then
        rotateQnVector k (corrDeltaPhi k m b) cur
      else cur.setFrom
    else cur.setFrom
  else { buf with good := false }

/-- QnCorrectionsQnVectorAlignment::Process: the calibration case only
collects (returning kFALSE), the applyCollect case collects and falls
through into the apply case, the apply case runs the apply stage and updates
the current Qn vector of the configuration, and a passive step falls through
the switch performing nothing. -/
def alignmentProcess (k : MathKernel) (m : Int) (s : StepState) (b : CorrBin)
    (buf cur ref : QnVector) : StepEffects :=
  match s with
  | StepState.calibration =>
      { corrected := buf, current := cur, updated := false,
        fills := fillCorrelationComponents cur ref m, qaFills := 0, ret := false }
  | StepState.applyCollect =>
      let c := alignApplyStage k m b buf cur
      { corrected := c, current := c, updated := true,
        fills := fillCorrelationComponents cur ref m, qaFills := 0, ret := true }
  | StepState.apply =>
      let c := alignApplyStage k m b buf cur
      { corrected := c, current := c, updated := true,
        fills := [], qaFills := 0, ret := true }
  | StepState.passive =>
      { corrected := buf, current := cur, updated := false,
        fills := [], qaFills := 0, ret := true }

/-- The apply stage body of QnCorrectionsQnVectorRecentering::Process (lines
168 to 195): for every active harmonic the mean read from the input profile
is subtracted and the result divided by a width which is 1.0 unless width
equalization is enabled, in which case it is the bin error (the standard
deviation) read from the input profile. -/
def recenterQnVector (widthEq : Bool) (b : RecBin) (v : QnVector) : QnVector :=
  { comps := v.comps.map (fun c =>
      let wX : Q := if widthEq then b.sdX c.1 else 1
      let wY : Q := if widthEq then b.sdY c.1 else 1
      (c.1, (c.2.1 - b.meanX c.1) / wX, (c.2.2 - b.meanY c.1) / wY)),
    good := v.good }

/-- The corrected buffer produced by the recentering apply stage: the
recentered vector when the current Qn vector is of good quality, otherwise
the untouched buffer marked bad. -/
def recenterApplyStage (widthEq : Bool) (b : RecBin) (buf cur : QnVector) :
    QnVector :=
  if cur.good then recenterQnVector widthEq b cur
  else { buf with good := false }

/-- The per-harmonic FillX / FillY collection loop of
QnCorrectionsQnVectorRecentering::Process, gated on the current Qn vector
being of good quality. -/
def fillComponents (v : QnVector) : List FillEntry :=
  if v.good then
    v.comps.flatMap (fun c => [FillEntry.fillX c.1 c.2.1, FillEntry.fillY c.1 c.2.2])
  else []

/-- QnCorrectionsQnVectorRecentering::Process: calibration only collects and
returns kFALSE, applyCollect collects and falls through into apply, apply
runs the apply stage and updates the current Qn vector, passive falls
through the switch performing nothing. -/
def recenteringProcess (widthEq : Bool) (s : StepState) (b : RecBin)
    (buf cur : QnVector) : StepEffects :=
  match s with
  | StepState.calibration =>
      { corrected := buf, current := cur, updated := false,
        fills := fillComponents cur, qaFills := 0, ret := false }
  | StepState.applyCollect =>
      let c := recenterApplyStage widthEq b buf cur
      { corrected := c, current := c, updated := true,
        fills := fillComponents cur, qaFills := 0, ret := true }
  | StepState.apply =>
      let c := recenterApplyStage widthEq b buf cur
      { corrected := c, current := c, updated := true,
        fills := [], qaFills := 0, ret := true }
  | StepState.passive =>
      { corrected := buf, current := cur, updated := false,
        fills := [], qaFills := 0, ret := true }

/-- The default minimum number of entries for bin content validation,
fDefaultMinNoOfEntries of QnCorrectionsQnVectorTwistAndRescale.cxx line 42. -/
def twistDefaultMinNoOfEntries : Nat := 2

/-- Modelled from the spec: BinContentValidated of the correlation components
profile (the histogram classes are not under src/) answers whether the entry
count of the bin has reached the configured minimum number of entries. -/
def binContentValidated (entries minEntries : Nat) : Bool :=
  decide (minEntries ≤ entries)

/-- The apply stage body of
QnCorrectionsQnVectorTwistAndRescale::ProcessCorrections (lines 224 to 262),
together with the number of fills into the not-validated QA histogram: the
same copy, validation check, significance gate and rotation as the alignment
apply stage, except that when the bin content is not validated the QA
histogram is filled once, provided it was created. -/
def twistApplyStage (k : MathKernel) (m : Int) (b : CorrBin) (qaPresent : Bool)
    (buf cur : QnVector) : QnVector × Nat :=
  if cur.good then
    if b.validated then
      (if ¬ (corrSignificance k b < 2) then
        rotateQnVector k (corrDeltaPhi k m b) cur
      else cur.setFrom, 0)
    else (cur.setFrom, if qaPresent then 1 else 0)
  else ({ buf with good := false }, 0)

/-- QnCorrectionsQnVectorTwistAndRescale::ProcessCorrections: calibration
performs nothing and returns kFALSE, applyCollect falls through into apply,
apply runs the apply stage and updates the current Qn vector, passive falls
through the switch performing nothing. -/
def twistProcessCorrections (k : MathKernel) (m : Int) (s : StepState)
    (b : CorrBin) (qaPresent : Bool) (buf cur : QnVector) : StepEffects :=
  match s with
  | StepState.calibration =>
      { corrected := buf, current := cur, updated := false,
        fills := [], qaFills := 0, ret := false }
  | StepState.applyCollect =>
      let c := twistApplyStage k m b qaPresent buf cur
      { corrected := c.1, current := c.1, updated := true,
        fills := [], qaFills := c.2, ret := true }
  | StepState.apply =>
      let c := twistApplyStage k m b qaPresent buf cur
      { corrected := c.1, current := c.1, updated := true,
        fills := [], qaFills := c.2, ret := true }
  | StepState.passive =>
      { corrected := buf, current := cur, updated := false,
        fills := [], qaFills := 0, ret := true }

/-- QnCorrectionsQnVectorTwistAndRescale::ProcessDataCollection (lines 275 to
328): in the calibration and applyCollect states the four correlation
components are filled from the input Qn vector of the step (the vector
recorded before this step ran, fInputQnVector) against the current Qn vector
of the reference detector configuration, gated on both being of good
quality; no vector is modified and no update of the current Qn vector of the
owning configuration (passed here as cur) is performed. -/
def twistProcessDataCollection (m : Int) (s : StepState)
    (inputV refV : QnVector) (buf cur : QnVector) : StepEffects :=
  match s with
  | StepState.calibration =>
      { corrected := buf, current := cur, updated := false,
        fills := fillCorrelationComponents inputV refV m, qaFills := 0,
        ret := false }
  | StepState.applyCollect =>
      { corrected := buf, current := cur, updated := false,
        fills := fillCorrelationComponents inputV refV m, qaFills := 0,
        ret := true }
  | StepState.apply =>
      { corrected := buf, current := cur, updated := false,
        fills := [], qaFills := 0, ret := true }
  | StepState.passive =>
      { corrected := buf, current := cur, updated := false,
        fills := [], qaFills := 0, ret := true }

/-- AttachInput of the three correction steps (QnCorrectionsQnVectorRecentering
lines 116 to 124, QnCorrectionsQnVectorAlignment lines 155 to 162,
QnCorrectionsQnVectorTwistAndRescale lines 171 to 178): when the input
histograms attach, the state is set to applyCollect and kTRUE returned,
otherwise the state is untouched and kFALSE returned.  The attachOk argument
stands for the answer of the external AttachHistograms call. -/
def attachInput (attachOk : Bool) (s : StepState) : StepState × Bool :=
  if attachOk then (StepState.applyCollect, true) else (s, false)

/-- Operations a correction step undergoes within one run: an AttachInput
call (with the external attach answer) or a per-event Process call, which
never writes fState in any of the three step sources. -/
inductive StepOp where
  | attach (ok : Bool)
  | processEvent
  deriving DecidableEq, Repr

/-- State evolution of one step operation. -/
def applyStepOp (s : StepState) (op : StepOp) : StepState :=
  match op with
  | StepOp.attach ok => (attachInput ok s).1
  | StepOp.processEvent => s

/-- State after a sequence of step operations. -/
def runStepOps (s : StepState) (ops : List StepOp) : StepState :=
  ops.foldl applyStepOp s

/-- Forward position of a state in the lifecycle machine of section 4.1 of
the spec: calibrating, then applying-and-collecting, then applying; passive
sits outside the calibration progression and is ranked last. -/
def stateRank (s : StepState) : Nat :=
  match s with
  | StepState.calibration => 0
  | StepState.applyCollect => 1
  | StepState.apply => 2
  | StepState.passive => 3

/-- Correction step identity: the stable correction name and the 4-character
ordering key. -/
structure CorrectionStep where
  name : String
  key : String
  deriving DecidableEq, Repr

/-- QnCorrectionsQnVectorRecentering, szCorrectionName and szKey (lines 41
and 42 of QnCorrectionsQnVectorRecentering.cxx). -/
def recenteringStep : CorrectionStep :=
  { name := "Recentering and width equalization", key := "CCCC" }

/-- QnCorrectionsQnVectorAlignment, szCorrectionName and szKey (lines 41 and
42 of QnCorrectionsQnVectorAlignment.cxx). -/
def alignmentStep : CorrectionStep :=
  { name := "Alignment", key := "EEEE" }

/-- QnCorrectionsQnVectorTwistAndRescale, szCorrectionName and szKey (lines
43 and 44 of QnCorrectionsQnVectorTwistAndRescale.cxx; the source file sets
szCorrectionName to the string Alignment). -/
def twistAndRescaleStep : CorrectionStep :=
  { name := "Alignment", key := "HHHH" }

/-- Modelled from the spec: QnCorrectionsCorrectionStepBase::Before (its cxx
file is not under src/) is simple lexical string comparison on the ordering
keys. -/
def stepBefore (a b : CorrectionStep) : Bool :=
  decide (a.key.data < b.key.data)

/-- Modelled from the spec: the correction set of a detector configuration
(QnCorrectionsCorrectionsSetOnQvector is not under src/) keeps its steps
ordered by the Before comparison, inserting each added step in front of the
first stored step it is Before. -/
def insertOrdered (s : CorrectionStep) : List CorrectionStep → List CorrectionStep
  | [] => [s]
  | t :: ts => if stepBefore s t then s :: t :: ts else t :: insertOrdered s ts

/-- Modelled from the spec: building the ordered step list of a detector
configuration by adding the steps one at a time in insertion order. -/
def buildPipeline (l : List CorrectionStep) : List CorrectionStep :=
  l.foldl (fun acc s => insertOrdered s acc) []

/-- The left-to-right or-accumulator loop of
QnCorrectionsDetectorConfigurationBase::AttachCorrectionInputs (lines 174 to
181 of QnCorrectionsDetector.cxx) and of
QnCorrectionsDetector::AttachCorrectionInputs (lines 82 to 89): each list
element is the answer the corresponding AttachInput call would give; the
result is the final accumulator value paired with the number of AttachInput
calls actually invoked, since the C++ logical-or skips its right operand
once the accumulator is true. -/
def attachCorrectionInputsLoop (acc : Bool) : List Bool → Bool × Nat
  | [] => (acc, 0)
  | r :: rest =>
    if acc then attachCorrectionInputsLoop true rest
    else
      let p := attachCorrectionInputsLoop (acc || r) rest
      (p.1, p.2 + 1)

/-- Entry point of the attach loop with the accumulator initialised to
kFALSE as in the source. -/
def attachCorrectionInputs (l : List Bool) : Bool × Nat :=
  attachCorrectionInputsLoop false l

/-- Rational token standing for the real number pi divided by two in the
sample-point kernel below; its exact value is irrelevant, only the
consistency of the kernel functions at it matters. -/
def halfPiMark : Q := 157 / 100

/-- Kernel sound at the sample points exercised by the concrete tests: the
square root of 0, 1 and 4, atan2 on the positive y axis (the real value pi
over two, represented by the halfPiMark token) and on the positive x axis,
and cosine and sine at 0 and at plus and minus pi over two. -/
def quarterTurnKernel : MathKernel where
  cos := fun t => if t = -halfPiMark ∨ t = halfPiMark then 0 else 1
  sin := fun t => if t = -halfPiMark then -1 else if t = halfPiMark then 1 else 0
  atan2 := fun y x =>
    if 0 < y ∧ x = 0 then halfPiMark
    else if y = -halfPiMark ∨ y = halfPiMark then y else 0
  sqrt := fun x => if x = 0 then 0 else if x = 1 then 1 else if x = 4 then 2 else 0

/-- Event-class bin contents at which the significance statistic is exactly
2: XY - YX = 2 and eXY * eXY + eYX * eYX = 1, so the square root argument is
4. -/
def boundaryBin : CorrBin :=
  { XX := 0, XY := 2, YX := 0, YY := 0, eXY := 1, eYX := 0, validated := true }

/-- Concrete good-quality current Qn vector with the single harmonic 1 at
(1, 0). -/
def sampleCur : QnVector := { comps := [(1, 1, 0)], good := true }

/-- Concrete corrected-vector buffer content before the Process call. -/
def sampleBuf : QnVector := { comps := [(1, 5, 7)], good := true }

/-- Concrete good-quality reference detector Qn vector. -/
def sampleRef : QnVector := { comps := [(1, 3, 4)], good := true }

/-- Concrete bad-quality current Qn vector. -/
def badCur : QnVector := { comps := [(1, 9, 8)], good := false }

/-- Concrete recentering bin contents: constant means one half and one
third, constant standard deviations 2 and 4. -/
def sampleRecBin : RecBin :=
  { meanX := fun _ => 1 / 2, meanY := fun _ => 1 / 3,
    sdX := fun _ => 2, sdY := fun _ => 4 }

/-- Event-class bin whose content is not validated (entry count 1 against
the default minimum of 2). -/
def notValidatedBin : CorrBin :=
  { XX := 0, XY := 2, YX := 0, YY := 0, eXY := 1, eYX := 0, validated := false }

/-- Helper lemma: under a good-quality current vector and a validated bin,
the alignment apply stage is the significance-gated choice between the
rotated vector and the untouched copy, the gate read as the statistic being
at least 2. -/
theorem alignApplyStage_spec (k : MathKernel) (m : Int) (b : CorrBin)
    (buf cur : QnVector) (hg : cur.good = true) (hv : b.validated = true) :
    alignApplyStage k m b buf cur =
      if 2 ≤ corrSignificance k b then rotateQnVector k (corrDeltaPhi k m b) cur
      else cur.setFrom := by
  simp [alignApplyStage, hg, hv, not_lt]

/-- C1: in an applying state, on an event whose current Qn vector is of good
quality and whose event-class bin content is validated, the alignment step
rotates every active harmonic h of the current vector by
deltaPhi = -atan2(XY-YX, XX+YY)/m, giving
Qx(h)*cos(h*deltaPhi) + Qy(h)*sin(h*deltaPhi) and
Qy(h)*cos(h*deltaPhi) - Qx(h)*sin(h*deltaPhi), exactly when
sqrt((XY-YX)^2/(eXY^2+eYX^2)) is at least 2.0, and otherwise leaves the
components of the current Qn vector unmodified; the current Qn vector is
updated either way. -/
theorem alignment_rotation_iff_significant
    (k : MathKernel) (m : Int) (s : StepState) (b : CorrBin)
    (buf cur ref : QnVector)
    (hs : s = StepState.applyCollect ∨ s = StepState.apply)
    (hg : cur.good = true) (hv : b.validated = true) :
    (alignmentProcess k m s b buf cur ref).current.comps =
      (if 2 ≤ corrSignificance k b then
        cur.comps.map (fun c =>
          (c.1,
            c.2.1 * k.cos ((c.1 : Q) * corrDeltaPhi k m b)
              + c.2.2 * k.sin ((c.1 : Q) * corrDeltaPhi k m b),
            c.2.2 * k.cos ((c.1 : Q) * corrDeltaPhi k m b)
              - c.2.1 * k.sin ((c.1 : Q) * corrDeltaPhi k m b)))
      else cur.comps) ∧
    (alignmentProcess k m s b buf cur ref).current.good = true ∧
    (alignmentProcess k m s b buf cur ref).updated = true := by
  rcases hs with rfl | rfl <;>
    · rw [alignmentProcess]
      simp only [alignApplyStage_spec k m b buf cur hg hv]
      split <;> simp [rotateQnVector, QnVector.setFrom, hg]

/-- Witness for C1 at the boundary bin with harmonic 2 in the apply state. -/
theorem alignment_rotation_iff_significant_witness :
    (sampleCur.good = true ∧ boundaryBin.validated = true) ∧
    ((alignmentProcess quarterTurnKernel 2 StepState.apply boundaryBin
        sampleBuf sampleCur sampleRef).current.comps =
      (if 2 ≤ corrSignificance quarterTurnKernel boundaryBin then
        sampleCur.comps.map (fun c =>
          (c.1,
            c.2.1 * quarterTurnKernel.cos
                ((c.1 : Q) * corrDeltaPhi quarterTurnKernel 2 boundaryBin)
              + c.2.2 * quarterTurnKernel.sin
                ((c.1 : Q) * corrDeltaPhi quarterTurnKernel 2 boundaryBin),
            c.2.2 * quarterTurnKernel.cos
                ((c.1 : Q) * corrDeltaPhi quarterTurnKernel 2 boundaryBin)
              - c.2.1 * quarterTurnKernel.sin
                ((c.1 : Q) * corrDeltaPhi quarterTurnKernel 2 boundaryBin)))
      else sampleCur.comps) ∧
    (alignmentProcess quarterTurnKernel 2 StepState.apply boundaryBin
        sampleBuf sampleCur sampleRef).current.good = true ∧
    (alignmentProcess quarterTurnKernel 2 StepState.apply boundaryBin
        sampleBuf sampleCur sampleRef).updated = true) :=
  ⟨⟨rfl, rfl⟩,
    alignment_rotation_iff_significant quarterTurnKernel 2 StepState.apply
      boundaryBin sampleBuf sampleCur sampleRef (Or.inr rfl) rfl rfl⟩

/-- C2: in an applying state, on an event whose current (input) Qn vector
has a false quality flag, each of the three correction steps performs no
arithmetic (the corrected buffer keeps its components and no calibration or
QA fill happens), marks its own corrected Qn vector bad quality, and still
updates the current Qn vector of the configuration, so the bad-quality flag
propagates downstream. -/
theorem bad_quality_flag_propagation
    (k : MathKernel) (m : Int) (s : StepState) (cb : CorrBin) (rb : RecBin)
    (widthEq qaPresent : Bool) (bufA bufR bufT cur ref : QnVector)
    (hs : s = StepState.applyCollect ∨ s = StepState.apply)
    (hg : cur.good = false) :
    (alignmentProcess k m s cb bufA cur ref).corrected = { bufA with good := false } ∧
    (alignmentProcess k m s cb bufA cur ref).current = { bufA with good := false } ∧
    (alignmentProcess k m s cb bufA cur ref).updated = true ∧
    (alignmentProcess k m s cb bufA cur ref).fills = [] ∧
    (recenteringProcess widthEq s rb bufR cur).corrected = { bufR with good := false } ∧
    (recenteringProcess widthEq s rb bufR cur).current = { bufR with good := false } ∧
    (recenteringProcess widthEq s rb bufR cur).updated = true ∧
    (recenteringProcess widthEq s rb bufR cur).fills = [] ∧
    (twistProcessCorrections k m s cb qaPresent bufT cur).corrected = { bufT with good := false } ∧
    (twistProcessCorrections k m s cb qaPresent bufT cur).current = { bufT with good := false } ∧
    (twistProcessCorrections k m s cb qaPresent bufT cur).updated = true ∧
    (twistProcessCorrections k m s cb qaPresent bufT cur).fills = [] ∧
    (twistProcessCorrections k m s cb qaPresent bufT cur).qaFills = 0 := by
  rcases hs with rfl | rfl <;>
    simp [alignmentProcess, recenteringProcess, twistProcessCorrections,
      alignApplyStage, recenterApplyStage, twistApplyStage,
      fillCorrelationComponents, fillComponents, hg]

/-- Witness for C2 on a concrete bad-quality current vector in the
applyCollect state. -/
theorem bad_quality_flag_propagation_witness :
    (badCur.good = false) ∧
    ((alignmentProcess quarterTurnKernel 2 StepState.applyCollect boundaryBin
        sampleBuf badCur sampleRef).corrected = { sampleBuf with good := false } ∧
    (alignmentProcess quarterTurnKernel 2 StepState.applyCollect boundaryBin
        sampleBuf badCur sampleRef).current = { sampleBuf with good := false } ∧
    (alignmentProcess quarterTurnKernel 2 StepState.applyCollect boundaryBin
        sampleBuf badCur sampleRef).updated = true ∧
    (alignmentProcess quarterTurnKernel 2 StepState.applyCollect boundaryBin
        sampleBuf badCur sampleRef).fills = [] ∧
    (recenteringProcess true StepState.applyCollect sampleRecBin
        sampleBuf badCur).corrected = { sampleBuf with good := false } ∧
    (recenteringProcess true StepState.applyCollect sampleRecBin
        sampleBuf badCur).current = { sampleBuf with good := false } ∧
    (recenteringProcess true StepState.applyCollect sampleRecBin
        sampleBuf badCur).updated = true ∧
    (recenteringProcess true StepState.applyCollect sampleRecBin
        sampleBuf badCur).fills = [] ∧
    (twistProcessCorrections quarterTurnKernel 2 StepState.applyCollect
        boundaryBin true sampleBuf badCur).corrected = { sampleBuf with good := false } ∧
    (twistProcessCorrections quarterTurnKernel 2 StepState.applyCollect
        boundaryBin true sampleBuf badCur).current = { sampleBuf with good := false } ∧
    (twistProcessCorrections quarterTurnKernel 2 StepState.applyCollect
        boundaryBin true sampleBuf badCur).updated = true ∧
    (twistProcessCorrections quarterTurnKernel 2 StepState.applyCollect
        boundaryBin true sampleBuf badCur).fills = [] ∧
    (twistProcessCorrections quarterTurnKernel 2 StepState.applyCollect
        boundaryBin true sampleBuf badCur).qaFills = 0) :=
  ⟨rfl,
    bad_quality_flag_propagation quarterTurnKernel 2 StepState.applyCollect
      boundaryBin sampleRecBin true true sampleBuf sampleBuf sampleBuf badCur
      sampleRef (Or.inl rfl) rfl⟩

/-- C3: in an applying state, on an event whose current Qn vector is of good
quality, recentering sets every active harmonic h of the current vector to
(Qx(h) - meanX(bin,h)) / widthX and (Qy(h) - meanY(bin,h)) / widthY, the
widths being 1 unless width equalization is enabled, in which case they are
the standard deviations of the bin; there is no gate on the bin, so in
particular the correction applies whenever the bin has at least one entry. -/
theorem recentering_apply_formula
    (widthEq : Bool) (s : StepState) (b : RecBin) (buf cur : QnVector)
    (hs : s = StepState.applyCollect ∨ s = StepState.apply)
    (hg : cur.good = true) :
    (recenteringProcess widthEq s b buf cur).current.comps =
      cur.comps.map (fun c =>
        (c.1,
          (c.2.1 - b.meanX c.1) / (if widthEq then b.sdX c.1 else 1),
          (c.2.2 - b.meanY c.1) / (if widthEq then b.sdY c.1 else 1))) ∧
    (recenteringProcess widthEq s b buf cur).current.good = true ∧
    (recenteringProcess widthEq s b buf cur).updated = true := by
  rcases hs with rfl | rfl <;>
    simp [recenteringProcess, recenterApplyStage, recenterQnVector, hg]

/-- Witness for C3 with width equalization enabled in the apply state. -/
theorem recentering_apply_formula_witness :
    (sampleCur.good = true) ∧
    ((recenteringProcess true StepState.apply sampleRecBin sampleBuf
        sampleCur).current.comps =
      sampleCur.comps.map (fun c =>
        (c.1,
          (c.2.1 - sampleRecBin.meanX c.1) / (if true then sampleRecBin.sdX c.1 else 1),
          (c.2.2 - sampleRecBin.meanY c.1) / (if true then sampleRecBin.sdY c.1 else 1))) ∧
    (recenteringProcess true StepState.apply sampleRecBin sampleBuf
        sampleCur).current.good = true ∧
    (recenteringProcess true StepState.apply sampleRecBin sampleBuf
        sampleCur).updated = true) :=
  ⟨rfl,
    recentering_apply_formula true StepState.apply sampleRecBin sampleBuf
      sampleCur (Or.inr rfl) rfl⟩

/-- C4: in an applying state, on an event whose current Qn vector is of good
quality, with the bin validation answer given by the entry count reaching
the configured minimum: when the entry count is below the minimum the
twist-and-rescale step leaves the components of the current Qn vector
arithmetically unchanged and fills the not-validated QA histogram exactly
once (the histogram being present); when the bin is validated the QA
histogram is not filled and the corrected vector is exactly the one the
alignment apply stage (same deltaPhi rotation and significance gate)
produces; the default minimum number of entries is 2. -/
theorem twist_validation_gate
    (k : MathKernel) (m : Int) (s : StepState) (b : CorrBin)
    (qaPresent : Bool) (buf cur : QnVector) (entries minEntries : Nat)
    (hs : s = StepState.applyCollect ∨ s = StepState.apply)
    (hg : cur.good = true) (hq : qaPresent = true)
    (hb : b.validated = binContentValidated entries minEntries) :
    (entries < minEntries →
      (twistProcessCorrections k m s b qaPresent buf cur).current.comps = cur.comps ∧
      (twistProcessCorrections k m s b qaPresent buf cur).current.good = true ∧
      (twistProcessCorrections k m s b qaPresent buf cur).qaFills = 1) ∧
    (minEntries ≤ entries →
      (twistProcessCorrections k m s b qaPresent buf cur).qaFills = 0 ∧
      (twistProcessCorrections k m s b qaPresent buf cur).corrected =
        alignApplyStage k m b buf cur ∧
      (twistProcessCorrections k m s b qaPresent buf cur).current =
        alignApplyStage k m b buf cur) ∧
    twistDefaultMinNoOfEntries = 2 := by
  refine ⟨?_, ?_, rfl⟩
  · intro hlt
    have hbv : b.validated = false := by
      rw [hb]; simp [binContentValidated]; omega
    rcases hs with rfl | rfl <;>
      simp [twistProcessCorrections, twistApplyStage, hg, hbv, hq,
        QnVector.setFrom]
  · intro hle
    have hbv : b.validated = true := by
      rw [hb]; simp [binContentValidated, hle]
    rcases hs with rfl | rfl <;>
      simp [twistProcessCorrections, twistApplyStage, alignApplyStage, hg, hbv]

/-- Witness for C4 with an unvalidated bin of entry count 1 against the
default minimum of 2. -/
theorem twist_validation_gate_witness :
    (sampleCur.good = true ∧
      notValidatedBin.validated = binContentValidated 1 twistDefaultMinNoOfEntries) ∧
    ((1 < twistDefaultMinNoOfEntries →
      (twistProcessCorrections quarterTurnKernel 2 StepState.apply
          notValidatedBin true sampleBuf sampleCur).current.comps = sampleCur.comps ∧
      (twistProcessCorrections quarterTurnKernel 2 StepState.apply
          notValidatedBin true sampleBuf sampleCur).current.good = true ∧
      (twistProcessCorrections quarterTurnKernel 2 StepState.apply
          notValidatedBin true sampleBuf sampleCur).qaFills = 1) ∧
    (twistDefaultMinNoOfEntries ≤ 1 →
      (twistProcessCorrections quarterTurnKernel 2 StepState.apply
          notValidatedBin true sampleBuf sampleCur).qaFills = 0 ∧
      (twistProcessCorrections quarterTurnKernel 2 StepState.apply
          notValidatedBin true sampleBuf sampleCur).corrected =
        alignApplyStage quarterTurnKernel 2 notValidatedBin sampleBuf sampleCur ∧
      (twistProcessCorrections quarterTurnKernel 2 StepState.apply
          notValidatedBin true sampleBuf sampleCur).current =
        alignApplyStage quarterTurnKernel 2 notValidatedBin sampleBuf sampleCur) ∧
    twistDefaultMinNoOfEntries = 2) :=
  ⟨⟨rfl, rfl⟩,
    twist_validation_gate quarterTurnKernel 2 StepState.apply notValidatedBin
      true sampleBuf sampleCur 1 twistDefaultMinNoOfEntries (Or.inr rfl) rfl
      rfl rfl⟩

/-- C5 counterexample: at bin contents XX=0, XY=2, YX=0, YY=0, eXY=1, eYX=0
the significance statistic sqrt((XY-YX)^2/(eXY^2+eYX^2)) is exactly 2, yet
both the alignment step and the twist-and-rescale step DO apply the rotation
on a good-quality current vector with harmonic 1 at (1, 0): the components
change, because the gate of the source applies the correction when the
statistic is NOT below 2.0.  The kernel used returns the exact real values
of sqrt, atan2, cos and sin at every point this computation visits. -/
theorem significance_exactly_two_still_applies :
    corrSignificance quarterTurnKernel boundaryBin = 2 ∧
    (alignmentProcess quarterTurnKernel 1 StepState.apply boundaryBin
      sampleBuf sampleCur sampleRef).current.comps ≠ sampleCur.comps ∧
    (twistProcessCorrections quarterTurnKernel 1 StepState.apply boundaryBin
      false sampleBuf sampleCur).current.comps ≠ sampleCur.comps := by
  refine ⟨?_, ?_, ?_⟩ <;>
    simp [corrSignificance, corrDeltaPhi, alignmentProcess,
      twistProcessCorrections, alignApplyStage, twistApplyStage,
      rotateQnVector, QnVector.setFrom, quarterTurnKernel, boundaryBin,
      sampleBuf, sampleCur, sampleRef, halfPiMark] <;>
    norm_num

/-- C5 amended: for every input on which the significance statistic equals
exactly 2.0 (good quality, validated bin), the alignment and the
twist-and-rescale corrections DO apply the rotation: the current Qn vector
becomes the deltaPhi-rotated vector, and the QA histogram is not filled. -/
theorem significance_boundary_gate_applies
    (k : MathKernel) (m : Int) (b : CorrBin) (buf cur ref : QnVector)
    (qaPresent : Bool)
    (hg : cur.good = true) (hv : b.validated = true)
    (h2 : corrSignificance k b = 2) :
    (alignmentProcess k m StepState.apply b buf cur ref).current =
      rotateQnVector k (corrDeltaPhi k m b) cur ∧
    (twistProcessCorrections k m StepState.apply b qaPresent buf cur).current =
      rotateQnVector k (corrDeltaPhi k m b) cur ∧
    (twistProcessCorrections k m StepState.apply b qaPresent buf cur).qaFills = 0 := by
  refine ⟨?_, ?_, ?_⟩ <;>
    simp [alignmentProcess, twistProcessCorrections, alignApplyStage,
      twistApplyStage, hg, hv, h2]

/-- Witness for the amended C5 at the boundary bin. -/
theorem significance_boundary_gate_applies_witness :
    (sampleCur.good = true ∧ boundaryBin.validated = true ∧
      corrSignificance quarterTurnKernel boundaryBin = 2) ∧
    ((alignmentProcess quarterTurnKernel 1 StepState.apply boundaryBin
        sampleBuf sampleCur sampleRef).current =
      rotateQnVector quarterTurnKernel
        (corrDeltaPhi quarterTurnKernel 1 boundaryBin) sampleCur ∧
    (twistProcessCorrections quarterTurnKernel 1 StepState.apply boundaryBin
        false sampleBuf sampleCur).current =
      rotateQnVector quarterTurnKernel
        (corrDeltaPhi quarterTurnKernel 1 boundaryBin) sampleCur ∧
    (twistProcessCorrections quarterTurnKernel 1 StepState.apply boundaryBin
        false sampleBuf sampleCur).qaFills = 0) :=
  ⟨⟨rfl, rfl, by norm_num [corrSignificance, quarterTurnKernel, boundaryBin]⟩,
    significance_boundary_gate_applies quarterTurnKernel 1 boundaryBin
      sampleBuf sampleCur sampleRef false rfl rfl
      (by norm_num [corrSignificance, quarterTurnKernel, boundaryBin])⟩

/-- Helper lemma: from the calibration state, a step only ever reaches the
calibration or the applyCollect state under attach and process operations. -/
theorem runStepOps_reach (ops : List StepOp) (s : StepState)
    (h : s = StepState.calibration ∨ s = StepState.applyCollect) :
    runStepOps s ops = StepState.calibration ∨
      runStepOps s ops = StepState.applyCollect := by
  induction ops generalizing s with
  | nil => exact h
  | cons op ops ih =>
      refine ih (applyStepOp s op) ?_
      rcases h with rfl | rfl <;> cases op with
      | attach ok => cases ok <;> simp [applyStepOp, attachInput]
      | processEvent => simp [applyStepOp]

/-- Helper lemma: from the calibration or the applyCollect state, the
lifecycle rank never decreases under attach and process operations. -/
theorem runStepOps_monotone (extra : List StepOp) (s : StepState)
    (h : s = StepState.calibration ∨ s = StepState.applyCollect) :
    stateRank s ≤ stateRank (runStepOps s extra) := by
  induction extra generalizing s with
  | nil => exact le_refl _
  | cons op ops ih =>
      have h2 : applyStepOp s op = StepState.calibration ∨
          applyStepOp s op = StepState.applyCollect := by
        rcases h with rfl | rfl <;> cases op with
        | attach ok => cases ok <;> simp [applyStepOp, attachInput]
        | processEvent => simp [applyStepOp]
      have h1 : stateRank s ≤ stateRank (applyStepOp s op) := by
        rcases h with rfl | rfl
        · exact Nat.zero_le _
        · cases op with
          | attach ok => cases ok <;> simp [applyStepOp, attachInput, stateRank]
          | processEvent => exact le_refl _
      exact le_trans h1 (ih (applyStepOp s op) h2)

/-- C6: AttachInput returns success exactly when the input histograms
attach; on success from the initial calibration state it performs exactly
the calibration to applyCollect transition, on failure it leaves the state
unchanged; and along any sequence of attach and per-event process operations
started in the initial calibration state the lifecycle state only advances
forward (its rank never decreases), never regressing. -/
theorem attach_state_machine :
    (∀ (ok : Bool) (s : StepState), (attachInput ok s).2 = ok) ∧
    attachInput true StepState.calibration = (StepState.applyCollect, true) ∧
    (∀ s : StepState, attachInput false s = (s, false)) ∧
    (∀ ops extra : List StepOp,
      stateRank (runStepOps StepState.calibration ops) ≤
        stateRank (runStepOps StepState.calibration (ops ++ extra))) := by
  refine ⟨?_, rfl, ?_, ?_⟩
  · intro ok s; cases ok <;> simp [attachInput]
  · intro s; simp [attachInput]
  · intro ops extra
    have he : runStepOps StepState.calibration (ops ++ extra) =
        runStepOps (runStepOps StepState.calibration ops) extra := by
      simp [runStepOps, List.foldl_append]
    rw [he]
    exact runStepOps_monotone extra _ (runStepOps_reach ops _ (Or.inl rfl))

/-- C7: in a collecting state, the twist-and-rescale data collection fills
the four correlation components from the input (pre-this-step) Qn vector of
the step at the alignment harmonic against the current Qn vector of the
reference detector, exactly when both report good quality; the result does
not depend on the current (already upstream-corrected) Qn vector of the own
configuration, which is neither modified nor updated. -/
theorem twist_collection_from_input_vector
    (m : Int) (s : StepState) (inputV refV buf cur : QnVector)
    (hs : s = StepState.calibration ∨ s = StepState.applyCollect) :
    (twistProcessDataCollection m s inputV refV buf cur).fills =
      (if inputV.good && refV.good then
        [ FillEntry.fillXX (inputV.Qx m * refV.Qx m),
          FillEntry.fillXY (inputV.Qx m * refV.Qy m),
          FillEntry.fillYX (inputV.Qy m * refV.Qx m),
          FillEntry.fillYY (inputV.Qy m * refV.Qy m) ]
      else []) ∧
    (∀ cur2 : QnVector,
      (twistProcessDataCollection m s inputV refV buf cur2).fills =
        (twistProcessDataCollection m s inputV refV buf cur).fills) ∧
    (twistProcessDataCollection m s inputV refV buf cur).current = cur ∧
    (twistProcessDataCollection m s inputV refV buf cur).updated = false := by
  rcases hs with rfl | rfl <;>
    simp [twistProcessDataCollection, fillCorrelationComponents]

/-- Witness for C7 in the calibration state at harmonic 2. -/
theorem twist_collection_from_input_vector_witness :
    ((twistProcessDataCollection 2 StepState.calibration sampleCur sampleRef
        sampleBuf badCur).fills =
      (if sampleCur.good && sampleRef.good then
        [ FillEntry.fillXX (sampleCur.Qx 2 * sampleRef.Qx 2),
          FillEntry.fillXY (sampleCur.Qx 2 * sampleRef.Qy 2),
          FillEntry.fillYX (sampleCur.Qy 2 * sampleRef.Qx 2),
          FillEntry.fillYY (sampleCur.Qy 2 * sampleRef.Qy 2) ]
      else []) ∧
    (∀ cur2 : QnVector,
      (twistProcessDataCollection 2 StepState.calibration sampleCur sampleRef
          sampleBuf cur2).fills =
        (twistProcessDataCollection 2 StepState.calibration sampleCur
            sampleRef sampleBuf badCur).fills) ∧
    (twistProcessDataCollection 2 StepState.calibration sampleCur sampleRef
        sampleBuf badCur).current = badCur ∧
    (twistProcessDataCollection 2 StepState.calibration sampleCur sampleRef
        sampleBuf badCur).updated = false) :=
  twist_collection_from_input_vector 2 StepState.calibration sampleCur
    sampleRef sampleBuf badCur (Or.inl rfl)

/-- C8: the ordering keys of the three steps satisfy the lexical order CCCC
before EEEE before HHHH under the Before comparison, and the ordered
insertion of the three steps produces the pipeline recentering, alignment,
twist-and-rescale from every one of the six possible insertion orders. -/
theorem correction_keys_lexical_order :
    stepBefore recenteringStep alignmentStep = true ∧
    stepBefore alignmentStep twistAndRescaleStep = true ∧
    stepBefore recenteringStep twistAndRescaleStep = true ∧
    buildPipeline [recenteringStep, alignmentStep, twistAndRescaleStep] =
      [recenteringStep, alignmentStep, twistAndRescaleStep] ∧
    buildPipeline [recenteringStep, twistAndRescaleStep, alignmentStep] =
      [recenteringStep, alignmentStep, twistAndRescaleStep] ∧
    buildPipeline [alignmentStep, recenteringStep, twistAndRescaleStep] =
      [recenteringStep, alignmentStep, twistAndRescaleStep] ∧
    buildPipeline [alignmentStep, twistAndRescaleStep, recenteringStep] =
      [recenteringStep, alignmentStep, twistAndRescaleStep] ∧
    buildPipeline [twistAndRescaleStep, recenteringStep, alignmentStep] =
      [recenteringStep, alignmentStep, twistAndRescaleStep] ∧
    buildPipeline [twistAndRescaleStep, alignmentStep, recenteringStep] =
      [recenteringStep, alignmentStep, twistAndRescaleStep] := by
  decide

/-- C9: the correction name constant of the twist-and-rescale step equals
the correction name constant of the alignment step (both are the string
Alignment, QnCorrectionsQnVectorTwistAndRescale.cxx line 43), so a detector
configuration holding one alignment step and one twist-and-rescale step
holds two correction steps with the same stage name, contradicting the
one-instance-per-stage-name invariant. -/
theorem twist_name_collides_with_alignment :
    twistAndRescaleStep.name = alignmentStep.name ∧
    ¬ (alignmentStep.name ≠ twistAndRescaleStep.name) := by
  decide

/-- Helper lemma: once the accumulator of the attach loop is true it stays
true and no further AttachInput call is invoked. -/
theorem attachLoop_true (l : List Bool) :
    attachCorrectionInputsLoop true l = (true, 0) := by
  induction l with
  | nil => rfl
  | cons r rest ih => simp [attachCorrectionInputsLoop, ih]

/-- C10: the attach fold visits the corrections left to right under a
short-circuiting or-accumulator: the returned flag is true exactly when
some correction answers true, and the number of AttachInput calls invoked
is the number of leading false answers plus one more when a true answer
exists, so no correction after the first successful one is invoked. -/
theorem attach_inputs_short_circuit (l : List Bool) :
    (attachCorrectionInputs l).1 = l.any id ∧
    (attachCorrectionInputs l).2 =
      (l.takeWhile (fun r => !r)).length + (if l.any id then 1 else 0) := by
  induction l with
  | nil => simp [attachCorrectionInputs, attachCorrectionInputsLoop]
  | cons r rest ih =>
      cases r with
      | true =>
          simp [attachCorrectionInputs, attachCorrectionInputsLoop,
            attachLoop_true, List.takeWhile]
      | false =>
          have h1 := ih
          simp [attachCorrectionInputs, attachCorrectionInputsLoop,
            List.takeWhile] at h1 ⊢
          refine ⟨h1.1, ?_⟩
          rw [h1.2]
          split <;> omega
